import Mathlib

/-!
Verification development for the recotwix protocol/geometry modules.

Shallow embedding of `recotwix/prot_volumes.py` and `recotwix/protocol.py`.
Python floats are modelled by exact rationals (ℚ); Python exceptions by an
explicit error type threaded through `Except`.  Optional dictionary keys are
modelled by `Option` fields; keys the source reads with mandatory `[...]`
access are plain fields.  The sibling module `transformation.py` (imported as
`T` by the source) is not part of the verified surface: per the design
documentation its functions are pure and never raise for numeric input, so
they affect neither the control flow nor the fields examined here, and the
derived `_transformation` / `_affine` matrices are omitted from the state.
-/

/-- Python exception outcomes relevant to the embedded code. -/
inductive PyError where
  | valueError (msg : String)
  | indexError (msg : String)
  | typeError (msg : String)
  | keyError (msg : String)
  | zeroDivisionError (msg : String)
deriving DecidableEq, Repr

/-- Python `int(x)` on a float: truncation toward zero. -/
def pyInt (q : ℚ) : ℤ := if 0 ≤ q then ⌊q⌋ else ⌈q⌉

/-- Python list indexing `xs[i]`: negative indices count from the end, and an
index out of range raises `IndexError`. -/
def pyListGet {α : Type} (xs : List α) (i : ℤ) : Except PyError α :=
  let j : ℤ := if i < 0 then i + xs.length else i
  if j < 0 then .error (.indexError "list index out of range")
  else
    match xs[j.toNat]? with
    | some x => .ok x
    | none => .error (.indexError "list index out of range")

/-- Python mandatory dictionary access `d[key]`: raises `KeyError` when the
key is absent (absent keys are the `none` case of the `Option` field). -/
def pyReq {α : Type} (o : Option α) (key : String) : Except PyError α :=
  match o with
  | some x => .ok x
  | none => .error (.keyError key)

/-- `sNormal` subtree of a volume structure: `dSag` / `dCor` / `dTra` are read
with `.get(key, 0)`, hence optional. -/
structure SNormal where
  dSag : Option ℚ
  dCor : Option ℚ
  dTra : Option ℚ
deriving DecidableEq, Repr

/-- `sPosition` subtree: components read with `.get(key, 0)`. -/
structure SPosition where
  dSag : Option ℚ
  dCor : Option ℚ
  dTra : Option ℚ
deriving DecidableEq, Repr

/-- One volume structure as read by `volume_orientation.__init__`:
`sNormal`, `dReadoutFOV`, `dPhaseFOV`, `dThickness` are accessed with
mandatory `[...]`; `dInPlaneRot` and `sPosition` with `.get(..., default)`. -/
structure VolumeStructure where
  sNormal : SNormal
  dInPlaneRot : Option ℚ
  sPosition : Option SPosition
  dReadoutFOV : ℚ
  dPhaseFOV : ℚ
  dThickness : ℚ
deriving DecidableEq, Repr

/-- The `_fov` dictionary: `x` = readout FOV, `y` = phase FOV, `z` = thickness. -/
structure Fov where
  x : ℚ
  y : ℚ
  z : ℚ
deriving DecidableEq, Repr

/-- A resolution dictionary with integer entries. -/
structure Res where
  x : ℤ
  y : ℤ
  z : ℤ
deriving DecidableEq, Repr

/-- The state of a constructed `volume_orientation` object (the derived
transformation/affine matrices from the pure `transformation` module are
omitted, see the file header). -/
structure volume_orientation where
  norm : List ℚ
  rot : ℚ
  pos : List ℚ
  fov : Fov
  res : Res
  thickness : ℚ
  name : Option String
deriving DecidableEq, Repr

/-- The resolution used by `volume_orientation.__init__`: the supplied one, or
`{key: int(value) for key, value in self._fov.items()}` when `res is None`. -/
def resolvedRes (v : VolumeStructure) (res0 : Option Res) : Res :=
  match res0 with
  | some r => r
  | none => ⟨pyInt v.dReadoutFOV, pyInt v.dPhaseFOV, pyInt v.dThickness⟩

/-- `volume_orientation.__init__(volume_structure, res, thickness, name)`.
Mirrors prot_volumes.py lines 19-40.  The only raising step reachable with a
well-typed `volume_structure` is the thickness derivation
`thickness = self._fov[z] / res[z]`, which raises `ZeroDivisionError` when
`res[z] == 0` (e.g. after `int()` truncation of a sub-unit FOV). -/
def volume_orientation.init (v : VolumeStructure) (res0 : Option Res)
    (thickness0 : Option ℚ) (name : Option String) :
    Except PyError volume_orientation := do
  let norm := [v.sNormal.dSag.getD 0, v.sNormal.dCor.getD 0, v.sNormal.dTra.getD 0]
  let rot := v.dInPlaneRot.getD 0
  let posS := v.sPosition.getD ⟨none, none, none⟩
  let pos := [posS.dSag.getD 0, posS.dCor.getD 0, posS.dTra.getD 0]
  let fov : Fov := ⟨v.dReadoutFOV, v.dPhaseFOV, v.dThickness⟩
  let res := resolvedRes v res0
  let thickness ← match thickness0 with
    | some t => pure t
    | none =>
        if res.z = 0 then throw (.zeroDivisionError "float division by zero")
        else pure (fov.z / (res.z : ℚ))
  -- Resampling fails when a volume with res[z] = 1 is given.
  if res.z = 1 then
    pure ⟨norm, rot, pos, fov, { res with z := 3 }, thickness / 3, name⟩
  else
    pure ⟨norm, rot, pos, fov, res, thickness, name⟩

/-- `volume_orientation.shape` property: x and y are swapped to match the
corresponding affine matrix convention. -/
def volume_orientation.shape (d : volume_orientation) : ℤ × ℤ × ℤ :=
  (d.res.y, d.res.x, d.res.z)

/-- `volume_orientation.fov` property (same x/y swap as `shape`). -/
def volume_orientation.fovProp (d : volume_orientation) : ℚ × ℚ × ℚ :=
  (d.fov.y, d.fov.x, d.fov.z)

/-- Python `str(x)` for the optional `name` attribute (`None` renders as
the string `None` in the f-string message). -/
def pyStrOptName (o : Option String) : String :=
  match o with
  | some s => s
  | none => "None"

/-- State of a `volume` collection object: a name and the `_vol_box` list. -/
structure volume where
  name : Option String
  vol_box : List volume_orientation
deriving DecidableEq, Repr

/-- `volume.__getitem__` (prot_volumes.py lines 78-81): an index `>= len`
raises `IndexError` with a message naming the collection, its size and the
requested index; any other index is handed to the underlying Python list. -/
def volume.getitem (c : volume) (i : ℤ) : Except PyError volume_orientation :=
  if i ≥ (c.vol_box.length : ℤ) then
    .error (.indexError ("Item out of range. " ++ pyStrOptName c.name ++
      " volume has only " ++ toString c.vol_box.length ++ " items but " ++
      toString i ++ " is asked."))
  else pyListGet c.vol_box i

/-- `volume.__len__`. -/
def volume.len (c : volume) : ℕ := c.vol_box.length

/-- `sAdjData` subtree: the nested `sAdjVolume` is probed with `.get`. -/
structure SAdjData where
  sAdjVolume : Option VolumeStructure
deriving DecidableEq, Repr

/-- `sSliceArray` subtree: the nested `asSlice` array is probed with `.get`. -/
structure SSliceArray where
  asSlice : Option (List VolumeStructure)
deriving DecidableEq, Repr

/-- `sPTXData` subtree: the nested `asPTXVolume` array is probed with `.get`. -/
structure SPTXData where
  asPTXVolume : Option (List VolumeStructure)
deriving DecidableEq, Repr

/-- `sKSpace` subtree as read by `volume_slice.__init__` (mandatory keys). -/
structure SKSpace where
  lBaseResolution : ℤ
  lPhaseEncodingLines : ℤ
  lPartitions : ℤ
  ucDimension : ℤ
deriving DecidableEq, Repr

/-- A parsed protocol (`xprot`) restricted to the keys `prot_volumes` reads.
Every key is optional: the source probes `sSliceArray` / `sPTXData` /
`sAdjData` / `ulVersion` with `.get`, and reads `sKSpace` with mandatory
access only when a slice array is present. -/
structure XProt where
  ulVersion : Option ℤ
  sSliceArray : Option SSliceArray
  sKSpace : Option SKSpace
  sPTXData : Option SPTXData
  sAdjData : Option SAdjData
deriving DecidableEq, Repr

/-- `volume_adjustment.__init__` (lines 90-97): empty when `sAdjData` or its
`sAdjVolume` is absent, otherwise the single adjustment volume. -/
def volume_adjustment.init (xprot : XProt) : Except PyError volume := do
  match xprot.sAdjData with
  | none => pure ⟨some "adjustment", []⟩
  | some adj =>
    match adj.sAdjVolume with
    | none => pure ⟨some "adjustment", []⟩
    | some v => do
      let d ← volume_orientation.init v none none none
      pure ⟨some "adjustment", [d]⟩

/-- `volume_slice.__init__` (lines 100-113): empty when `sSliceArray` or its
`asSlice` is absent; otherwise the shared resolution is read from `sKSpace`
(`lPartitions` only counts for 3-D scans, `ucDimension == 4`) and every entry
of `asSlice` becomes one `volume_orientation` with that resolution.  (The
local `positions` list built by the loop is never used and is omitted.) -/
def volume_slice.init (xprot : XProt) : Except PyError volume := do
  match xprot.sSliceArray with
  | none => pure ⟨some "slice", []⟩
  | some sa =>
    match sa.asSlice with
    | none => pure ⟨some "slice", []⟩
    | some slices => do
      let ks ← pyReq xprot.sKSpace "sKSpace"
      let res : Res := ⟨ks.lBaseResolution, ks.lPhaseEncodingLines,
        if ks.ucDimension = 4 then ks.lPartitions else 1⟩
      let ds ← slices.mapM (fun s => volume_orientation.init s (some res) none none)
      pure ⟨some "slice", ds⟩

/-- `volume_ptx.__init__` (lines 116-125): empty when `sPTXData` or its
`asPTXVolume` is absent, otherwise one volume per array entry, each deriving
its own resolution from its own FOV. -/
def volume_ptx.init (xprot : XProt) : Except PyError volume := do
  match xprot.sPTXData with
  | none => pure ⟨some "pTx", []⟩
  | some ptx =>
    match ptx.asPTXVolume with
    | none => pure ⟨some "pTx", []⟩
    | some vols => do
      let ds ← vols.mapM (fun s => volume_orientation.init s none none none)
      pure ⟨some "pTx", ds⟩

/-- The `'hdr'` value of a constructor dictionary: its `'MeasYaps'` key is
read with mandatory access `param['hdr']['MeasYaps']`. -/
structure HdrDict where
  MeasYaps : Option XProt
deriving DecidableEq, Repr

/-- A dictionary passed to `prot_volumes.__init__`, as probed by the source:
the `'hdr'` and `'MeasYaps'` keys via `.get`, and the dictionary itself
viewed as a parsed protocol for the `'ulVersion'` probe. -/
structure ParamDict where
  hdr : Option HdrDict
  MeasYaps : Option XProt
  asProt : XProt
deriving DecidableEq, Repr

/-- The constructor argument of `prot_volumes.__init__`: `None`, a
dictionary, or a string (a path; `isfile` tells whether it names an existing
file, and `parsed` is the result the external `twixprot.parse_buffer` returns
for its text). -/
inductive Param where
  | noneP : Param
  | dict (d : ParamDict) : Param
  | str (isfile : Bool) (parsed : XProt) : Param
deriving DecidableEq, Repr

/-- Python `type(param)` rendering used in the `ValueError` message. -/
def paramTypeName : Param → String
  | .noneP => "<class \x27NoneType\x27>"
  | .dict _ => "<class \x27dict\x27>"
  | .str _ _ => "<class \x27str\x27>"

/-- State of a constructed `prot_volumes` object.  `all_volumes` is an
insertion-ordered association list mirroring the Python dict. -/
structure prot_volumes where
  xprot : Option XProt
  all_volumes : List (String × volume)
  num_volumes : ℕ
deriving DecidableEq, Repr

/-- Lines 154-158 of `prot_volumes.__init__`: build the three collections
from the resolved `xprot` and count the volumes. -/
def prot_volumes.build (xprot : XProt) : Except PyError prot_volumes := do
  let slc ← volume_slice.init xprot
  let ptx ← volume_ptx.init xprot
  let adj ← volume_adjustment.init xprot
  let all := [("slc", slc), ("ptx", ptx), ("adj", adj)]
  pure ⟨some xprot, all, (all.map (fun kv => kv.2.vol_box.length)).sum⟩

/-- `prot_volumes.__init__` (lines 133-158).  `param=None` returns at once,
leaving the object with its class-level defaults (`xprot=None`, empty
`_all_volumes`, `num_volumes=0`).  A dictionary is probed for `'hdr'`, then
`'MeasYaps'`, then `'ulVersion'`, in that order; a string is read and parsed
when it names an existing file; anything else raises `ValueError`. -/
def prot_volumes.init (param : Param) : Except PyError prot_volumes := do
  match param with
  | .noneP => pure ⟨none, [], 0⟩
  | .dict d =>
    match d.hdr with
    | some h => do
      let xp ← pyReq h.MeasYaps "MeasYaps"
      prot_volumes.build xp
    | none =>
      match d.MeasYaps with
      | some xp => prot_volumes.build xp
      | none =>
        if d.asProt.ulVersion.isSome then prot_volumes.build d.asProt
        else throw (.valueError ("Unknown parameter type: " ++ paramTypeName param))
  | .str isfile parsed =>
    if isfile then prot_volumes.build parsed
    else throw (.valueError ("Unknown parameter type: " ++ paramTypeName param))

/-- `prot_volumes.get_volume_names` (lines 160-161): names of the non-empty
collections, in dictionary order. -/
def prot_volumes.get_volume_names (p : prot_volumes) : List String :=
  (p.all_volumes.filter (fun kv => kv.2.vol_box.length > 0)).map (fun kv => kv.1)

/-- `prot_volumes.get` (lines 163-167): dictionary lookup, `ValueError`
naming the requested key when it is unknown. -/
def prot_volumes.get (p : prot_volumes) (volume_name : String) :
    Except PyError volume :=
  match p.all_volumes.lookup volume_name with
  | some v => .ok v
  | none => .error (.valueError ("Unknown volume name: " ++ volume_name))

/-- Python `list.index(x)`: position of the first occurrence, `ValueError`
when absent. -/
def pyIndexOf : List String → String → Except PyError ℕ
  | [], t => .error (.valueError (t ++ " is not in list"))
  | x :: xs, t =>
    if x = t then .ok 0
    else
      match pyIndexOf xs t with
      | .ok n => .ok (n + 1)
      | .error e => .error e

/-- `sKSpace` keys read by `protocol_parse.__init__` (all mandatory there). -/
structure PKSpace where
  ucDimension : ℤ
  lBaseResolution : ℤ
  lPhaseEncodingLines : ℤ
  lPartitions : ℤ
  ucPhasePartialFourier : ℤ
  ucSlicePartialFourier : ℤ
deriving DecidableEq, Repr

/-- `sSliceArray` as read by protocol.py (only `lSize`). -/
structure PSliceArray where
  lSize : ℤ
deriving DecidableEq, Repr

/-- `sPat` keys (all mandatory). -/
structure PPat where
  ucPATMode : ℤ
  ucRefScanMode : ℤ
  lAccelFactPE : ℤ
  lAccelFact3D : ℤ
deriving DecidableEq, Repr

/-- `sCoilElementID` subtree. -/
structure CoilElementID where
  tCoilID : String
deriving DecidableEq, Repr

/-- One entry of `asList`. -/
structure CoilListEntry where
  sCoilElementID : CoilElementID
deriving DecidableEq, Repr

/-- One entry of `aRxCoilSelectData`. -/
structure RxCoilSelectData where
  asList : List CoilListEntry
deriving DecidableEq, Repr

/-- `sCoilSelectMeas` subtree. -/
structure SCoilSelectMeas where
  aRxCoilSelectData : List RxCoilSelectData
deriving DecidableEq, Repr

/-- One entry of `asNucleusInfo`. -/
structure NucleusInfo where
  lFrequency : ℚ
deriving DecidableEq, Repr

/-- `sTXSPEC` subtree. -/
structure STXSPEC where
  asNucleusInfo : List NucleusInfo
deriving DecidableEq, Repr

/-- `MeasYaps` keys read by protocol.py. -/
structure PMeasYaps where
  sKSpace : PKSpace
  sSliceArray : PSliceArray
  sPat : PPat
  sCoilSelectMeas : SCoilSelectMeas
  sTXSPEC : STXSPEC
deriving DecidableEq, Repr

/-- `Meas` keys read by protocol.py. -/
structure PMeas where
  tProtocolName : String
  alTR : List ℚ
  alTE : List ℚ
  lContrasts : ℤ
  adFlipAngleDegree : List ℚ
deriving DecidableEq, Repr

/-- One entry of `asGPAData`: the offsets are read with `.get(key, 0)`. -/
structure GPAEntry where
  lOffsetX : Option ℚ
  lOffsetY : Option ℚ
  lOffsetZ : Option ℚ
deriving DecidableEq, Repr

/-- `sGRADSPEC` subtree: both keys probed with `.get(key, 0.0)`. -/
structure SGRADSPEC where
  alShimCurrent : Option (List ℚ)
  asGPAData : Option (List GPAEntry)
deriving DecidableEq, Repr

/-- `Phoenix` subtree read by protocol.py. -/
structure PPhoenix where
  sGRADSPEC : SGRADSPEC
deriving DecidableEq, Repr

/-- The header of a twix object as read by `protocol_parse.__init__`. -/
structure PHdr where
  MeasYaps : PMeasYaps
  Meas : PMeas
  Phoenix : PPhoenix
deriving DecidableEq, Repr

/-- The image-data collaborator: dimension names and sizes. -/
structure ImageData where
  dims : List String
  shape : List ℤ
deriving DecidableEq, Repr

/-- The twix object handed to `protocol_parse`. -/
structure TwixObj where
  hdr : PHdr
  image : ImageData
deriving DecidableEq, Repr

/-- The dynamically-typed value of
`hdr[Phoenix][sGRADSPEC].get(alShimCurrent, 0.0)`: a list when the key is
present, the float default `0.0` otherwise. -/
inductive PyShimVal where
  | float (q : ℚ)
  | list (xs : List ℚ)
deriving DecidableEq, Repr

/-- `.get(alShimCurrent, 0.0)` (protocol.py line 47). -/
def shimDefault : Option (List ℚ) → PyShimVal
  | some xs => .list xs
  | none => .float 0

/-- Python `len(x)`: raises `TypeError` on a float. -/
def pyLenShim : PyShimVal → Except PyError ℕ
  | .float _ => .error (.typeError "object of type \x27float\x27 has no len()")
  | .list xs => .ok xs.length

/-- `alShimCurrent[k] if len(alShimCurrent) > k else 0.0` (lines 52-60):
`len` is evaluated unconditionally, so a float default raises `TypeError`
before the guard can select the 0.0 branch. -/
def shimAt (v : PyShimVal) (k : ℕ) : Except PyError ℚ := do
  let n ← pyLenShim v
  if k < n then
    match v with
    | .list xs => pure (xs.getD k 0)
    | .float q => pure q
  else pure 0

/-- The dynamically-typed value of `.get(asGPAData, 0.0)`. -/
inductive PyGPAVal where
  | float (q : ℚ)
  | list (xs : List GPAEntry)
deriving DecidableEq, Repr

/-- `.get(asGPAData, 0.0)` (lines 49-51). -/
def gpaDefault : Option (List GPAEntry) → PyGPAVal
  | some xs => .list xs
  | none => .float 0

/-- The subscript `[0]` applied to that value: `TypeError` on the float
default, `IndexError` on an empty list. -/
def pyGPASub0 : PyGPAVal → Except PyError GPAEntry
  | .float _ => .error (.typeError "\x27float\x27 object is not subscriptable")
  | .list [] => .error (.indexError "list index out of range")
  | .list (e :: _) => .ok e

/-- The numpy slice `xs[0:stop]` used for `alTE` (negative stops trim from
the end; slicing never raises). -/
def npSlice0 (xs : List ℚ) (stop : ℤ) : List ℚ :=
  if 0 ≤ stop then xs.take stop.toNat
  else xs.take ((xs.length : ℤ) + stop).toNat

/-- `res` dictionary of `protocol_parse` (integer entries). -/
structure PRes where
  x : ℤ
  y : ℤ
  z : ℤ
deriving DecidableEq, Repr

/-- The shim dictionary of `protocol_parse`. -/
structure Shims where
  A00 : ℚ
  X : ℚ
  Y : ℚ
  Z : ℚ
  A20 : ℚ
  A21 : ℚ
  B21 : ℚ
  A22 : ℚ
  B22 : ℚ
  A30 : ℚ
  A31 : ℚ
  B31 : ℚ
  A32 : ℚ
deriving DecidableEq, Repr

/-- The state of a constructed `protocol_parse` object (`OS` is left at its
class default by the source, whose assignment line is commented out). -/
structure protocol_parse where
  is3D : Bool
  res : PRes
  isParallelImaging : Bool
  isRefScanSeparate : Bool
  acceleration_factor : List ℤ
  isPartialFourierRO : Bool
  isPartialFourierPE1 : Bool
  isPartialFourierPE2 : Bool
  protName : String
  TR : ℚ
  TE : List ℚ
  FA : ℚ
  coilName : String
  shims : Shims
deriving DecidableEq, Repr

/-- The partial-Fourier-readout test of protocol.py line 37:
`abs(res[x] - img.shape[img.dims.index(Col)//2]) > 4`. -/
def partialFourierROFlag (resx : ℤ) (img : ImageData) : Except PyError Bool := do
  let ci ← pyIndexOf img.dims "Col"
  let s ← pyListGet img.shape ((ci : ℤ) / 2)
  pure (decide ((resx - s).natAbs > 4))

/-- `protocol_parse.__init__` (protocol.py lines 24-60), with assignments in
source order; the shim dictionary literal evaluates its entries in key order
(`A00`, `X`, `Y`, `Z`, `A20`, ..., `A32`), and the source re-evaluates
`.get(asGPAData, 0.0)[0]` for each of `X`, `Y`, `Z`. -/
def protocol_parse.init (twix_obj : TwixObj) : Except PyError protocol_parse := do
  let hdr := twix_obj.hdr
  let img := twix_obj.image
  let is3D := hdr.MeasYaps.sKSpace.ucDimension = 4
  let res0 : PRes := ⟨hdr.MeasYaps.sKSpace.lBaseResolution,
    hdr.MeasYaps.sKSpace.lPhaseEncodingLines, hdr.MeasYaps.sSliceArray.lSize⟩
  let res := if is3D then { res0 with z := hdr.MeasYaps.sKSpace.lPartitions } else res0
  let isParallelImaging := hdr.MeasYaps.sPat.ucPATMode = 2
  let isRefScanSeparate := hdr.MeasYaps.sPat.ucRefScanMode = 4
  let acceleration_factor := [hdr.MeasYaps.sPat.lAccelFactPE, hdr.MeasYaps.sPat.lAccelFact3D]
  let isPartialFourierRO ← partialFourierROFlag res.x img
  let isPartialFourierPE1 := hdr.MeasYaps.sKSpace.ucPhasePartialFourier ≠ 16
  let isPartialFourierPE2 := hdr.MeasYaps.sKSpace.ucSlicePartialFourier ≠ 16
  let protName := hdr.Meas.tProtocolName
  let tr0 ← pyListGet hdr.Meas.alTR 0
  let TR := tr0 / 1000
  let TE := npSlice0 hdr.Meas.alTE hdr.Meas.lContrasts
  let FA ← pyListGet hdr.Meas.adFlipAngleDegree 0
  let rx0 ← pyListGet hdr.MeasYaps.sCoilSelectMeas.aRxCoilSelectData 0
  let cl0 ← pyListGet rx0.asList 0
  let coilName := cl0.sCoilElementID.tCoilID
  let alShimCurrent := shimDefault hdr.Phoenix.sGRADSPEC.alShimCurrent
  let nuc0 ← pyListGet hdr.MeasYaps.sTXSPEC.asNucleusInfo 0
  let gX ← pyGPASub0 (gpaDefault hdr.Phoenix.sGRADSPEC.asGPAData)
  let gY ← pyGPASub0 (gpaDefault hdr.Phoenix.sGRADSPEC.asGPAData)
  let gZ ← pyGPASub0 (gpaDefault hdr.Phoenix.sGRADSPEC.asGPAData)
  let a20 ← shimAt alShimCurrent 0
  let a21 ← shimAt alShimCurrent 1
  let b21 ← shimAt alShimCurrent 2
  let a22 ← shimAt alShimCurrent 3
  let b22 ← shimAt alShimCurrent 4
  let a30 ← shimAt alShimCurrent 5
  let a31 ← shimAt alShimCurrent 6
  let b31 ← shimAt alShimCurrent 7
  let a32 ← shimAt alShimCurrent 8
  let shims : Shims := ⟨nuc0.lFrequency, gX.lOffsetX.getD 0, gY.lOffsetY.getD 0,
    gZ.lOffsetZ.getD 0, a20, a21, b21, a22, b22, a30, a31, b31, a32⟩
  pure ⟨is3D, res, isParallelImaging, isRefScanSeparate, acceleration_factor,
    isPartialFourierRO, isPartialFourierPE1, isPartialFourierPE2, protName,
    TR, TE, FA, coilName, shims⟩

/-- Is the constructor argument of `prot_volumes` recognized by none of the
probes of `__init__`?  (`None` is excluded: the source returns early for it.)
Mirrors the complement of the dispatch on prot_volumes.py lines 133-152. -/
def unrecognizedParam : Param → Bool
  | .noneP => false
  | .dict d => d.hdr.isNone && d.MeasYaps.isNone && d.asProt.ulVersion.isNone
  | .str isfile _ => !isfile

/-- The slice-array subsection is absent at some level: no `sSliceArray`
key, or an `sSliceArray` without `asSlice` (the two early-return guards of
`volume_slice.__init__`). -/
def sliceArrayAbsent (x : XProt) : Bool :=
  match x.sSliceArray with
  | none => true
  | some sa => sa.asSlice.isNone

/-- A concrete constructed volume descriptor, used as collection content in
the index-claims witnesses. -/
def sampleVol : volume_orientation :=
  ⟨[0, 0, 1], 0, [0, 0, 0], ⟨200, 200, 5⟩, ⟨4, 4, 3⟩, 5, none⟩

/-- A complete parsed header/image pair whose `sGRADSPEC` lacks the optional
`asGPAData` key (every other field the extractor reads is present). -/
def twixGPAMissing : TwixObj :=
  ⟨⟨⟨⟨2, 128, 128, 1, 16, 16⟩, ⟨1⟩, ⟨1, 1, 1, 1⟩, ⟨[⟨[⟨⟨"HeadNeck"⟩⟩]⟩]⟩, ⟨[⟨123200000⟩]⟩⟩,
    ⟨"gre", [20000], [3000], 1, [15]⟩,
    ⟨⟨some [1, 2, 3, 4, 5, 6, 7, 8, 9], none⟩⟩⟩,
   ⟨["Col"], [128]⟩⟩

/-- A complete parsed header/image pair whose `sGRADSPEC` lacks the optional
`alShimCurrent` key (every other field the extractor reads is present). -/
def twixShimMissing : TwixObj :=
  ⟨⟨⟨⟨2, 128, 128, 1, 16, 16⟩, ⟨1⟩, ⟨1, 1, 1, 1⟩, ⟨[⟨[⟨⟨"HeadNeck"⟩⟩]⟩]⟩, ⟨[⟨123200000⟩]⟩⟩,
    ⟨"gre", [20000], [3000], 1, [15]⟩,
    ⟨⟨none, some [⟨some 0, some 0, some 0⟩]⟩⟩⟩,
   ⟨["Col"], [100]⟩⟩

/-- A complete parsed header/image pair with both optional shim keys present
and 100 acquired readout samples against a base resolution of 128. -/
def twixFull : TwixObj :=
  ⟨⟨⟨⟨2, 128, 128, 1, 16, 16⟩, ⟨1⟩, ⟨1, 1, 1, 1⟩, ⟨[⟨[⟨⟨"HeadNeck"⟩⟩]⟩]⟩, ⟨[⟨123200000⟩]⟩⟩,
    ⟨"gre", [20000], [3000], 1, [15]⟩,
    ⟨⟨some [1, 2, 3, 4, 5, 6, 7, 8, 9], some [⟨some 0, some 0, some 0⟩]⟩⟩⟩,
   ⟨["Col"], [100]⟩⟩

/-- The summary `protocol_parse.init twixFull` evaluates to. -/
def parseFull : protocol_parse :=
  ⟨false, ⟨128, 128, 1⟩, false, false, [1, 1], true, false, false, "gre",
   20000 / 1000, [3000], 15, "HeadNeck", ⟨123200000, 0, 0, 0, 1, 2, 3, 4, 5, 6, 7, 8, 9⟩⟩

/-- On `Except`, binding after `ok` applies the continuation. -/
theorem except_bind_ok {ε α β : Type} (a : α) (f : α → Except ε β) :
    (Except.ok a : Except ε α) >>= f = f a := rfl

/-- On `Except`, binding after `error` keeps the error. -/
theorem except_bind_error {ε α β : Type} (e : ε) (f : α → Except ε β) :
    (Except.error e : Except ε α) >>= f = Except.error e := rfl

/-- `pure` on `Except` is `ok`. -/
theorem except_pure {ε α : Type} (a : α) : (pure a : Except ε α) = Except.ok a := rfl

/-- A successful bind factors through a successful first step. -/
theorem except_bind_eq_ok {ε α β : Type} {x : Except ε α} {f : α → Except ε β} {b : β}
    (h : x >>= f = Except.ok b) : ∃ a, x = Except.ok a ∧ f a = Except.ok b := by
  cases x with
  | ok a => exact ⟨a, rfl, h⟩
  | error e => rw [except_bind_error] at h; exact absurd h (by intro hc; cases hc)

/-- Claim C1: for every volume geometry whose supplied-or-derived resolution
has z component 1, construction succeeds and the descriptor has resolution
z = 3 and a thickness equal to one third of the thickness it would otherwise
have had (the supplied one, resp. fov.slice / 1 when it was derived). -/
theorem claim_C1 (v : VolumeStructure) (res0 : Option Res) (th0 : Option ℚ)
    (nm : Option String) (h : (resolvedRes v res0).z = 1) :
    ∃ d, volume_orientation.init v res0 th0 nm = Except.ok d ∧
      d.res.z = 3 ∧ d.thickness = th0.getD (v.dThickness / 1) / 3 := by
  unfold volume_orientation.init
  cases th0 with
  | some t => simp [h]; exact ⟨_, rfl, rfl, rfl⟩
  | none => simp [h]; exact ⟨_, rfl, rfl, rfl⟩

/-- Claim C1, witness: the degenerate-z correction at a concrete input
(resolution ⟨4, 4, 1⟩, thickness 6). -/
theorem claim_C1_witness :
    ∃ d, volume_orientation.init ⟨⟨none, none, some 1⟩, none, none, 200, 200, 6⟩
      (some ⟨4, 4, 1⟩) (some 6) none = Except.ok d ∧
      d.res.z = 3 ∧ d.thickness = (some (6:ℚ)).getD ((6:ℚ) / 1) / 3 :=
  claim_C1 _ _ _ _ rfl

/-- Claim C9: an input meeting the documented precondition that all FOV
components are positive (here readout 200, phase 200, slice 0.5), with no
resolution and no thickness supplied, makes descriptor construction raise
`ZeroDivisionError`: `int()` truncation of the 0.5 mm slice FOV yields
resolution z = 0, and the thickness derivation then divides by it. -/
theorem claim_C9 :
    (0:ℚ) < 200 ∧ (0:ℚ) < 1/2 ∧ pyInt (1/2) = 0 ∧
    volume_orientation.init ⟨⟨none, none, some 1⟩, none, none, 200, 200, 1/2⟩ none none none
      = Except.error (PyError.zeroDivisionError "float division by zero") := by
  refine ⟨by norm_num, by norm_num, by norm_num [pyInt], ?_⟩
  norm_num [volume_orientation.init, resolvedRes, pyInt, throw, throwThe,
    MonadExceptOf.throw, Except.map, Functor.map]

/-- Claim C7: every constructed descriptor has `shape` equal to
(resolution.y, resolution.x, resolution.z) of its stored resolution and
`fov` equal to (phase, readout, slice) — both swapped in x/y relative to the
input (the stored x and y resolutions are the input ones). -/
theorem claim_C7 (v : VolumeStructure) (res0 : Option Res) (th0 : Option ℚ)
    (nm : Option String) (d : volume_orientation)
    (h : volume_orientation.init v res0 th0 nm = Except.ok d) :
    d.shape = (d.res.y, d.res.x, d.res.z) ∧
    d.fovProp = (v.dPhaseFOV, v.dReadoutFOV, v.dThickness) ∧
    d.res.x = (resolvedRes v res0).x ∧ d.res.y = (resolvedRes v res0).y := by
  unfold volume_orientation.init at h
  cases th0 with
  | some t =>
    simp only [except_pure, except_bind_ok] at h
    split at h <;> (cases h; exact ⟨rfl, rfl, rfl, rfl⟩)
  | none =>
    simp only [throw, throwThe, MonadExceptOf.throw] at h
    split at h
    · rw [except_bind_error] at h; cases h
    · simp only [except_pure, except_bind_ok] at h
      split at h <;> (cases h; exact ⟨rfl, rfl, rfl, rfl⟩)

/-- Claim C7, witness: the axis swap at a concrete constructed descriptor. -/
theorem claim_C7_witness :
    (⟨[0,0,1], 0, [0,0,0], ⟨200, 200, 6⟩, ⟨4, 4, 3⟩, 2, none⟩ : volume_orientation).shape
        = (4, 4, 3) ∧
    (⟨[0,0,1], 0, [0,0,0], ⟨200, 200, 6⟩, ⟨4, 4, 3⟩, 2, none⟩ : volume_orientation).fovProp
        = (200, 200, 6) ∧
    (⟨[0,0,1], 0, [0,0,0], ⟨200, 200, 6⟩, ⟨4, 4, 3⟩, 2, none⟩ : volume_orientation).res.x = 4 ∧
    (⟨[0,0,1], 0, [0,0,0], ⟨200, 200, 6⟩, ⟨4, 4, 3⟩, 2, none⟩ : volume_orientation).res.y = 4 :=
  claim_C7 ⟨⟨none, none, some 1⟩, none, none, 200, 200, 6⟩ (some ⟨4, 4, 3⟩) (some 2) none
    ⟨[0,0,1], 0, [0,0,0], ⟨200, 200, 6⟩, ⟨4, 4, 3⟩, 2, none⟩ rfl

/-- Claim C6: indexing a collection at any index not below its length raises
`IndexError` with a message reporting the collection name, its actual size
and the requested index. -/
theorem claim_C6 (c : volume) (i : ℤ) (h : (c.vol_box.length : ℤ) ≤ i) :
    c.getitem i = Except.error (PyError.indexError ("Item out of range. " ++
      pyStrOptName c.name ++ " volume has only " ++ toString c.vol_box.length ++
      " items but " ++ toString i ++ " is asked.")) := by
  unfold volume.getitem
  rw [if_pos h]

/-- Claim C6, witness: index 99 into a 3-element collection. -/
theorem claim_C6_witness :
    volume.getitem ⟨some "slice", [sampleVol, sampleVol, sampleVol]⟩ 99 =
      Except.error (PyError.indexError ("Item out of range. " ++
        pyStrOptName (some "slice") ++ " volume has only " ++
        toString ([sampleVol, sampleVol, sampleVol].length) ++ " items but " ++
        toString (99:ℤ) ++ " is asked.")) :=
  claim_C6 ⟨some "slice", [sampleVol, sampleVol, sampleVol]⟩ 99 (by norm_num)

/-- Claim C10: on a non-empty collection, a negative index i with
-len ≤ i ≤ -1 is not caught by the range check (which rejects only
i ≥ len) and returns the element at position len + i. -/
theorem claim_C10 (c : volume) (i : ℤ) (h1 : c.vol_box ≠ [])
    (h2 : -(c.vol_box.length : ℤ) ≤ i) (h3 : i ≤ -1) :
    ∃ x, c.getitem i = Except.ok x ∧
      c.vol_box[((c.vol_box.length : ℤ) + i).toNat]? = some x := by
  have hlen : (0:ℤ) < c.vol_box.length := by
    cases hb : c.vol_box with
    | nil => exact absurd hb h1
    | cons a l => simp [hb]
  have hneg : i < 0 := lt_of_le_of_lt h3 (by norm_num)
  have hnotge : ¬ (i ≥ (c.vol_box.length : ℤ)) := by omega
  have hj : (0:ℤ) ≤ i + c.vol_box.length := by omega
  have hjnat : (i + (c.vol_box.length : ℤ)).toNat < c.vol_box.length := by omega
  unfold volume.getitem pyListGet
  rw [if_neg hnotge, if_pos hneg, if_neg (not_lt.mpr hj)]
  rw [List.getElem?_eq_getElem hjnat]
  refine ⟨c.vol_box[(i + (c.vol_box.length : ℤ)).toNat], rfl, ?_⟩
  rw [show ((c.vol_box.length : ℤ) + i) = i + c.vol_box.length from add_comm _ _]
  exact List.getElem?_eq_getElem hjnat

/-- Claim C10, witness: index -1 into a singleton collection returns its
last (only) element. -/
theorem claim_C10_witness :
    ∃ x, volume.getitem ⟨some "slice", [sampleVol]⟩ (-1) = Except.ok x ∧
      [sampleVol][(((1:ℕ) : ℤ) + (-1)).toNat]? = some x := by
  have := claim_C10 ⟨some "slice", [sampleVol]⟩ (-1) (by simp) (by norm_num) (by norm_num)
  simpa using this

/-- The key list of a registry that went through `prot_volumes.build`. -/
theorem build_keys (x : XProt) (r : prot_volumes) (h : prot_volumes.build x = Except.ok r) :
    ∃ s p a, r.all_volumes = [("slc", s), ("ptx", p), ("adj", a)] := by
  unfold prot_volumes.build at h
  obtain ⟨s, hs, h⟩ := except_bind_eq_ok h
  obtain ⟨p, hp, h⟩ := except_bind_eq_ok h
  obtain ⟨a, ha, h⟩ := except_bind_eq_ok h
  rw [except_pure] at h
  cases h
  exact ⟨s, p, a, rfl⟩

/-- Every successfully constructed registry has either no collections
(the `param=None` early return) or exactly the keys slc, ptx, adj. -/
theorem init_keys (p : Param) (r : prot_volumes) (h : prot_volumes.init p = Except.ok r) :
    r.all_volumes = [] ∨ ∃ s px a, r.all_volumes = [("slc", s), ("ptx", px), ("adj", a)] := by
  cases p with
  | noneP =>
    unfold prot_volumes.init at h
    dsimp only at h
    rw [except_pure] at h; cases h; exact Or.inl rfl
  | dict d =>
    unfold prot_volumes.init at h
    dsimp only at h
    cases hh : d.hdr with
    | some hd =>
      rw [hh] at h
      dsimp only at h
      obtain ⟨xp, hxp, h⟩ := except_bind_eq_ok h
      exact Or.inr (build_keys _ _ h)
    | none =>
      rw [hh] at h
      dsimp only at h
      cases hm : d.MeasYaps with
      | some xp => rw [hm] at h; dsimp only at h; exact Or.inr (build_keys _ _ h)
      | none =>
        rw [hm] at h
        dsimp only at h
        cases hv : d.asProt.ulVersion.isSome with
        | true => rw [hv] at h; rw [if_pos rfl] at h; exact Or.inr (build_keys _ _ h)
        | false =>
          rw [hv] at h
          simp only [Bool.false_eq_true, if_false, throw, throwThe, MonadExceptOf.throw] at h
          cases h
  | str isfile parsed =>
    unfold prot_volumes.init at h
    dsimp only at h
    cases isfile with
    | true => exact Or.inr (build_keys _ _ h)
    | false => simp only [Bool.false_eq_true, if_false, throw, throwThe, MonadExceptOf.throw] at h; cases h

/-- Claim C3, amended: `get(name)` with a name other than slc, ptx, adj on
any constructed registry raises `ValueError` whose message names the
requested unknown name (not the valid set). -/
theorem claim_C3_amended (p : Param) (r : prot_volumes) (name : String)
    (h : prot_volumes.init p = Except.ok r)
    (h1 : name ≠ "slc") (h2 : name ≠ "ptx") (h3 : name ≠ "adj") :
    prot_volumes.get r name =
      Except.error (PyError.valueError ("Unknown volume name: " ++ name)) := by
  unfold prot_volumes.get
  rcases init_keys p r h with hk | ⟨s, px, a, hk⟩ <;> rw [hk]
  · rfl
  · have b1 : (name == "slc") = false := beq_eq_false_iff_ne.mpr h1
    have b2 : (name == "ptx") = false := beq_eq_false_iff_ne.mpr h2
    have b3 : (name == "adj") = false := beq_eq_false_iff_ne.mpr h3
    simp only [List.lookup, b1, b2, b3]

/-- Claim C3, amended, witness: `get("unknown")` on a concrete registry. -/
theorem claim_C3_amended_witness :
    prot_volumes.get ⟨none, [], 0⟩ "unknown" =
      Except.error (PyError.valueError ("Unknown volume name: " ++ "unknown")) :=
  claim_C3_amended Param.noneP ⟨none, [], 0⟩ "unknown" rfl
    (by decide) (by decide) (by decide)

/-- Claim C3, counterexample: on a concretely constructed registry,
`get("unknown")` raises with the message `Unknown volume name: unknown`,
which does not name any of the valid collection names slc, ptx, adj. -/
theorem claim_C3_counterexample :
    prot_volumes.init (Param.dict ⟨none, none, ⟨some 51130001, none, none, none, none⟩⟩) =
      Except.ok ⟨some ⟨some 51130001, none, none, none, none⟩,
        [("slc", ⟨some "slice", []⟩), ("ptx", ⟨some "pTx", []⟩),
         ("adj", ⟨some "adjustment", []⟩)], 0⟩ ∧
    prot_volumes.get ⟨some ⟨some 51130001, none, none, none, none⟩,
        [("slc", ⟨some "slice", []⟩), ("ptx", ⟨some "pTx", []⟩),
         ("adj", ⟨some "adjustment", []⟩)], 0⟩ "unknown" =
      Except.error (PyError.valueError "Unknown volume name: unknown") ∧
    ¬ ("slc".data <:+: "Unknown volume name: unknown".data) ∧
    ¬ ("ptx".data <:+: "Unknown volume name: unknown".data) ∧
    ¬ ("adj".data <:+: "Unknown volume name: unknown".data) :=
  ⟨rfl, rfl, by decide, by decide, by decide⟩

/-- Claim C4, counterexample: `None` is neither a mapping with a recognized
header key nor a path to an existing file, yet registry construction does
not fail — it returns an object with no collections at all. -/
theorem claim_C4_counterexample :
    prot_volumes.init Param.noneP = Except.ok ⟨none, [], 0⟩ ∧
    unrecognizedParam Param.noneP = false := ⟨rfl, rfl⟩

/-- Claim C4, amended: for every non-None constructor argument that is
neither a mapping containing one of the recognized keys (probed as hdr,
then MeasYaps, then ulVersion) nor a string naming an existing file,
construction fails with `ValueError` (`Unknown parameter type: ...`) and no
registry is produced; a `None` argument instead returns early with a
degenerate object holding no collections. -/
theorem claim_C4_amended (p : Param) (h : unrecognizedParam p = true) :
    prot_volumes.init p =
      Except.error (PyError.valueError ("Unknown parameter type: " ++ paramTypeName p)) := by
  cases p with
  | noneP => simp [unrecognizedParam] at h
  | dict d =>
    simp only [unrecognizedParam, Bool.and_eq_true, Option.isNone_iff_eq_none] at h
    obtain ⟨⟨hh, hm⟩, hv⟩ := h
    unfold prot_volumes.init
    dsimp only
    rw [hh, hm]
    dsimp only
    rw [hv]
    rfl
  | str isfile parsed =>
    simp only [unrecognizedParam, Bool.not_eq_true'] at h
    unfold prot_volumes.init
    dsimp only
    rw [h]
    rfl

/-- Claim C4, amended, witness: a string that names no existing file. -/
theorem claim_C4_amended_witness :
    prot_volumes.init (Param.str false ⟨none, none, none, none, none⟩) =
      Except.error (PyError.valueError ("Unknown parameter type: " ++
        paramTypeName (Param.str false ⟨none, none, none, none, none⟩))) :=
  claim_C4_amended (Param.str false ⟨none, none, none, none, none⟩) rfl

/-- Claim C5, counterexample: a parsed protocol whose slice-array subsection
is absent but that carries a pTx volume with slice FOV 0.5 mm makes registry
construction raise `ZeroDivisionError` (the defect of claim C9), so
construction does not succeed for every slice-array-free protocol. -/
theorem claim_C5_counterexample :
    sliceArrayAbsent ⟨some 1, none, none,
        some ⟨some [⟨⟨none, none, some 1⟩, none, none, 200, 200, 1/2⟩]⟩, none⟩ = true ∧
    prot_volumes.init (Param.dict ⟨none, none, ⟨some 1, none, none,
        some ⟨some [⟨⟨none, none, some 1⟩, none, none, 200, 200, 1/2⟩]⟩, none⟩⟩) =
      Except.error (PyError.zeroDivisionError "float division by zero") := by
  refine ⟨rfl, ?_⟩
  norm_num [prot_volumes.init, prot_volumes.build, volume_slice.init, volume_ptx.init,
    volume_adjustment.init, volume_orientation.init, resolvedRes, pyInt,
    List.mapM, List.mapM.loop, throw, throwThe, MonadExceptOf.throw, Except.map, Functor.map,
    bind, Except.bind, pure, Except.pure]

/-- Registry construction from a dictionary recognized through its
`ulVersion` key reduces to building the collections. -/
theorem init_dict_ulVersion (x : XProt) (hv : x.ulVersion.isSome = true) :
    prot_volumes.init (Param.dict ⟨none, none, x⟩) = prot_volumes.build x := by
  have he : prot_volumes.init (Param.dict ⟨none, none, x⟩) =
      (if x.ulVersion.isSome = true then prot_volumes.build x
       else throw (PyError.valueError ("Unknown parameter type: " ++
         paramTypeName (Param.dict ⟨none, none, x⟩)))) := rfl
  rw [he, if_pos hv]

/-- Claim C5, amended: for every parsed protocol (recognized via its
ulVersion key) whose slice-array subsection is absent at any level and whose
pTx and adjustment collections construct successfully, registry construction
succeeds, the slc collection is empty (length 0), and the volume-name list
excludes slc. -/
theorem claim_C5_amended (x : XProt) (hv : x.ulVersion.isSome = true)
    (hs : sliceArrayAbsent x = true) (pv av : volume)
    (hp : volume_ptx.init x = Except.ok pv) (ha : volume_adjustment.init x = Except.ok av) :
    ∃ r, prot_volumes.init (Param.dict ⟨none, none, x⟩) = Except.ok r ∧
      r.get "slc" = Except.ok ⟨some "slice", []⟩ ∧
      (⟨some "slice", []⟩ : volume).vol_box.length = 0 ∧
      "slc" ∉ r.get_volume_names := by
  have hslc : volume_slice.init x = Except.ok ⟨some "slice", []⟩ := by
    unfold volume_slice.init
    unfold sliceArrayAbsent at hs
    cases hsa : x.sSliceArray with
    | none => rfl
    | some sa =>
      rw [hsa] at hs
      dsimp only at hs ⊢
      rw [Option.isNone_iff_eq_none] at hs
      rw [hs]
      rfl
  refine ⟨⟨some x, [("slc", ⟨some "slice", []⟩), ("ptx", pv), ("adj", av)],
    ([("slc", (⟨some "slice", []⟩ : volume)), ("ptx", pv), ("adj", av)].map
      (fun kv => kv.2.vol_box.length)).sum⟩, ?_, ?_, rfl, ?_⟩
  · rw [init_dict_ulVersion x hv]
    unfold prot_volumes.build
    rw [hslc, except_bind_ok, hp, except_bind_ok, ha, except_bind_ok]
    rfl
  · rfl
  · intro hmem
    unfold prot_volumes.get_volume_names at hmem
    simp only [List.mem_map, List.mem_filter] at hmem
    obtain ⟨kv, ⟨hkv, hlen⟩, hfst⟩ := hmem
    simp only [List.mem_cons, List.mem_singleton] at hkv
    rcases hkv with h1 | h1 | h1 | h1
    · rw [h1] at hlen; simp at hlen
    · rw [h1] at hfst; simp at hfst
    · rw [h1] at hfst; simp at hfst
    · simp at h1

/-- Claim C5, amended, witness: a protocol with only a version key. -/
theorem claim_C5_amended_witness :
    ∃ r, prot_volumes.init (Param.dict ⟨none, none, ⟨some 1, none, none, none, none⟩⟩) =
        Except.ok r ∧
      r.get "slc" = Except.ok ⟨some "slice", []⟩ ∧
      (⟨some "slice", []⟩ : volume).vol_box.length = 0 ∧
      "slc" ∉ r.get_volume_names :=
  claim_C5_amended ⟨some 1, none, none, none, none⟩ rfl rfl
    ⟨some "pTx", []⟩ ⟨some "adjustment", []⟩ rfl rfl

/-- Claim C2: the summary extractor does raise on a header missing an
optional shim key — with `asGPAData` absent, the float default 0.0 is
subscripted and a `TypeError` escapes; with `alShimCurrent` absent, the
float default is passed to `len()` and a `TypeError` escapes.  The shim
fields are not defaulted to zero, contrary to the documented behavior. -/
theorem claim_C2 :
    twixGPAMissing.hdr.Phoenix.sGRADSPEC.asGPAData = none ∧
    protocol_parse.init twixGPAMissing =
      Except.error (PyError.typeError "\x27float\x27 object is not subscriptable") ∧
    twixShimMissing.hdr.Phoenix.sGRADSPEC.alShimCurrent = none ∧
    protocol_parse.init twixShimMissing =
      Except.error (PyError.typeError "object of type \x27float\x27 has no len()") :=
  ⟨rfl, rfl, rfl, rfl⟩

/-- Claim C8: for every parsed header and image object on which the summary
constructs, the partial-Fourier-readout flag is true exactly when the
absolute difference between the k-space base resolution and the sample count
the source reads for the readout/column dimension exceeds 4. -/
theorem claim_C8 (twix : TwixObj) (p : protocol_parse) (ci : ℕ) (s : ℤ)
    (h : protocol_parse.init twix = Except.ok p)
    (hci : pyIndexOf twix.image.dims "Col" = Except.ok ci)
    (hs : pyListGet twix.image.shape ((ci : ℤ) / 2) = Except.ok s) :
    (p.isPartialFourierRO = true ↔
      4 < (twix.hdr.MeasYaps.sKSpace.lBaseResolution - s).natAbs) := by
  unfold protocol_parse.init at h
  obtain ⟨b, hb, h⟩ := except_bind_eq_ok h
  obtain ⟨tr0, htr, h⟩ := except_bind_eq_ok h
  obtain ⟨fa, hfa, h⟩ := except_bind_eq_ok h
  obtain ⟨rx0, hrx, h⟩ := except_bind_eq_ok h
  obtain ⟨cl0, hcl, h⟩ := except_bind_eq_ok h
  obtain ⟨nuc0, hnuc, h⟩ := except_bind_eq_ok h
  obtain ⟨gX, hgX, h⟩ := except_bind_eq_ok h
  obtain ⟨gY, hgY, h⟩ := except_bind_eq_ok h
  obtain ⟨gZ, hgZ, h⟩ := except_bind_eq_ok h
  obtain ⟨a20, h20, h⟩ := except_bind_eq_ok h
  obtain ⟨a21, h21, h⟩ := except_bind_eq_ok h
  obtain ⟨b21, hb21, h⟩ := except_bind_eq_ok h
  obtain ⟨a22, h22, h⟩ := except_bind_eq_ok h
  obtain ⟨b22, hb22, h⟩ := except_bind_eq_ok h
  obtain ⟨a30, h30, h⟩ := except_bind_eq_ok h
  obtain ⟨a31, h31, h⟩ := except_bind_eq_ok h
  obtain ⟨b31, hb31, h⟩ := except_bind_eq_ok h
  obtain ⟨a32, h32, h⟩ := except_bind_eq_ok h
  rw [except_pure] at h
  cases h
  split at hb <;>
  · unfold partialFourierROFlag at hb
    rw [hci, except_bind_ok, hs, except_bind_ok, except_pure] at hb
    cases hb
    simp

/-- Claim C8, witness: 100 acquired readout samples against a base
resolution of 128 set the flag (|128 - 100| = 28 > 4). -/
theorem claim_C8_witness :
    parseFull.isPartialFourierRO = true ↔ 4 < ((128:ℤ) - 100).natAbs :=
  claim_C8 twixFull parseFull 0 100 rfl rfl rfl
